import Mathlib

/-!
Shallow embedding of `src/source/geojson_worker_source.ts` (maplibre-gl-js):
the GeoJSON worker source's load coordination (`loadData`), input resolution
(`loadGeoJSON`), source teardown (`removeSource`), tile extraction
(`loadGeoJSONTile`) and cluster-property wiring (`getSuperclusterOptions`).

External collaborators (network transport `getJSON`, `JSON.parse`, the style
expression compiler `createExpression`, `geojson-rewind`, `geojson-vt`,
`supercluster`, `vt-pbf`) are modelled as function parameters: the embedding
fixes only what the worker source itself does with their results.
JavaScript machine numbers are modelled as `Int` (no claim touches floats).
-/

namespace GeoWorker

/-- Primitive JSON values: the leaves a property bag or a feature id can hold.
`jnull` is JSON `null`. -/
inductive JSPrim where
  | jnull
  | jbool (b : Bool)
  | jnum (n : Int)
  | jstr (s : String)
deriving DecidableEq, Repr

/-- JavaScript truthiness of a primitive (NaN is not modelled; numbers are `Int`). -/
def JSPrim.truthy : JSPrim → Bool
  | .jnull => false
  | .jbool b => b
  | .jnum n => n != 0
  | .jstr s => s != ""

/-- A property bag: a JavaScript object with primitive values, as an ordered
association list with unique keys (insertion order, like JS object keys). -/
abbrev PropBag := List (String × JSPrim)

/-- Reading `bag[key]`: `none` models JavaScript `undefined`. -/
def getProp : PropBag → String → Option JSPrim
  | [], _ => none
  | (k, v) :: rest, key => if k = key then some v else getProp rest key

/-- Writing `bag[key] = v`: replace in place if the key exists, else append
(JS object insertion-order semantics). -/
def setProp : PropBag → String → JSPrim → PropBag
  | [], key, v => [(key, v)]
  | (k, w) :: rest, key, v =>
      if k = key then (k, v) :: rest else (k, w) :: setProp rest key v

/-- A GeoJSON feature as this worker source observes it: an optional native
`id` and a flat property bag; the geometry is opaque to every claimed
behavior and is carried as a tag. -/
structure GeoFeature where
  id : Option JSPrim := none
  properties : PropBag := []
  geometry : Nat := 0
deriving DecidableEq, Repr

/-- A JSON object as this worker source inspects it: its `type` tag
(such as "FeatureCollection" or "Point") and its `features` array when
present (`none` models an absent field, i.e. `undefined`). -/
structure GeoObj where
  type : Option String := none
  features : Option (List GeoFeature) := none
deriving DecidableEq, Repr

/-- A JavaScript value as it can reach the worker from `loadGeoJSON`:
`undefined`, `null`, a primitive, or an object. -/
inductive JSValue where
  | undefined
  | null
  | boolean (b : Bool)
  | number (n : Int)
  | string (s : String)
  | object (o : GeoObj)
deriving DecidableEq, Repr

/-- JavaScript truthiness (the `!data` check of `loadData`). -/
def JSValue.truthy : JSValue → Bool
  | .undefined => false
  | .null => false
  | .boolean b => b
  | .number n => n != 0
  | .string s => s != ""
  | .object _ => true

/-- Whether `typeof v === 'object'` holds in JavaScript; note `typeof null`
is `'object'`. -/
def JSValue.typeofObject : JSValue → Bool
  | .null => true
  | .object _ => true
  | _ => false

/-- Projection used once the `!data` and `typeof` guards have passed; the
default is never reached under those guards. -/
def JSValue.asObject : JSValue → GeoObj
  | .object o => o
  | _ => {}

/-- Rendering of `params.source` inside a template literal: an absent
optional field prints as "undefined". -/
def sourceName (source : Option String) : String :=
  match source with
  | some s => s
  | none => "undefined"

/-- Message of the error `loadData` rejects with when `loadGeoJSON` yields a
falsy value. -/
def noDataMessage : String := "No data was returned"

/-- Message of the invalid-input error, naming the source; used both by
`loadData`'s `typeof` check and by `loadGeoJSON`'s parse-failure and
missing-input paths. -/
def invalidDataMessage (source : Option String) : String :=
  "Input data given to '" ++ sourceName source ++ "' is not a valid GeoJSON object."

/-- Message of the error thrown when a diff arrives but no updateable store
exists. -/
def cannotUpdateMessage (source : Option String) : String :=
  "Cannot update existing geojson data in " ++ sourceName source

/-- Message modelling the JavaScript TypeError thrown when the filter path
reads `.features` of a value that has no such field (`undefined.filter`). -/
def featuresTypeErrorMessage : String :=
  "TypeError: data.features is undefined"

/-- Style expression source text: a JSON tree of primitives and arrays, the
shape `createExpression` receives (`['+', ['accumulated'], ['get', 'sum']]`). -/
inductive ExprSpec where
  | lit (v : JSPrim)
  | arr (es : List ExprSpec)

/-- Evaluation context handed to a compiled expression: the worker source
builds `{accumulated, zoom}` records (`accumulated` absent or null is
`none`). -/
structure ExprGlobals where
  accumulated : Option JSPrim := none
  zoom : Nat := 0
deriving DecidableEq, Repr

/-- A compiled style expression, as the worker consumes it: a pure
evaluation function over a context and a feature. -/
abbrev CompiledExpr := ExprGlobals → GeoFeature → JSPrim

/-- One entry of a compile-error list: `{key, message}`. -/
structure ExprParseError where
  key : String
  message : String
deriving DecidableEq, Repr

/-- Outcome of `createExpression`: `{result: 'error', value: errors}` or
`{result: 'success', value: compiledExpression}`. -/
inductive ExprResult where
  | error (errs : List ExprParseError)
  | success (value : CompiledExpr)

/-- Reading `.value` and calling `.evaluate` on it. When the stored result is
an error list the JavaScript call would crash (the code never checks
`result` in `getSuperclusterOptions`); that crash is out of the modelled
behaviors, so the error case returns null and every theorem about
evaluation assumes compilation succeeded. -/
def ExprResult.evalValue : ExprResult → ExprGlobals → GeoFeature → JSPrim
  | .success f, g, ft => f g ft
  | .error _, _, _ => .jnull

/-- The property-spec record `createExpression` is called with when
`loadData` compiles a filter. -/
structure StylePropertySpec where
  type : String
  propertyType : String
  overridable : Bool
  transition : Bool
deriving DecidableEq, Repr

/-- The external expression compiler, as a parameter: the second argument is
the optional property spec (`loadData` passes one, `getSuperclusterOptions`
does not). -/
abbrev CreateExpression := ExprSpec → Option StylePropertySpec → ExprResult

/-- The exact options object `loadData` passes to `createExpression` for a
configured filter: `{type: 'boolean', 'property-type': 'data-driven',
overridable: false, transition: false}`. -/
def filterCompileSpec : StylePropertySpec :=
  { type := "boolean", propertyType := "data-driven", overridable := false, transition := false }

/-- Supercluster construction options: the pass-through options are opaque
(`base`); `map` reads the shared `globals` record and a point's properties;
`reduce` additionally threads the `globals` record it mutates
(`globals.accumulated`) and returns the updated accumulated bag. -/
structure SuperclusterOptions where
  base : Nat := 0
  map : Option (ExprGlobals → PropBag → PropBag) := none
  reduce : Option (ExprGlobals → PropBag → PropBag → PropBag × ExprGlobals) := none

/-- The cluster-property spec: output property name to
(reduce operator-or-expression, map expression), in the object's key
enumeration order. -/
abbrev ClusterProperties := List (String × ExprSpec × ExprSpec)

/-- The initial shared globals record of `getSuperclusterOptions`:
`{accumulated: null, zoom: 0}`. Nothing ever writes `zoom`. -/
def scInitialGlobals : ExprGlobals := { accumulated := none, zoom := 0 }

/-- Synthesis of a reduce expression: a bare operator name (a string) becomes
`[operator, ['accumulated'], ['get', key]]`; anything else is used directly
as a full expression. -/
def clusterReduceExprSpec (key : String) (operator : ExprSpec) : ExprSpec :=
  match operator with
  | .lit (.jstr op) =>
      .arr [.lit (.jstr op), .arr [.lit (.jstr "accumulated")],
            .arr [.lit (.jstr "get"), .lit (.jstr key)]]
  | e => e

/-- Lookup of `mapExpressions[key]`: the compiled map expression of the
cluster-property entry named `key` (keys are unique in a JS object). -/
def scMapExpression (createExpression : CreateExpression) (cps : ClusterProperties)
    (key : String) : ExprResult :=
  match cps.find? (fun e => e.1 = key) with
  | some (_, _, mapExpression) => createExpression mapExpression none
  | none => .error []

/-- Lookup of `reduceExpressions[key]`: the compiled (possibly synthesized)
reduce expression of the cluster-property entry named `key`. -/
def scReduceExpression (createExpression : CreateExpression) (cps : ClusterProperties)
    (key : String) : ExprResult :=
  match cps.find? (fun e => e.1 = key) with
  | some (_, operator, _) => createExpression (clusterReduceExprSpec key operator) none
  | none => .error []

/-- The installed `map` callback: for each output name, evaluate its map
expression against the shared globals and a one-feature context whose
properties are the point's, accumulating into a fresh bag. The callback
only reads the shared globals. -/
def scMapCallback (createExpression : CreateExpression) (cps : ClusterProperties)
    (globals : ExprGlobals) (pointProperties : PropBag) : PropBag :=
  (cps.map (fun e => e.1)).foldl
    (fun properties key =>
      setProp properties key
        ((scMapExpression createExpression cps key).evalValue globals
          { id := none, properties := pointProperties, geometry := 0 }))
    []

/-- One iteration of the installed `reduce` callback's loop, for one output
name: set `globals.accumulated` to `accumulated[key]`, evaluate the reduce
expression against the incoming properties, and overwrite
`accumulated[key]` with the result; the mutated globals record is threaded. -/
def scReduceStep (createExpression : CreateExpression) (cps : ClusterProperties)
    (clusterProperties : PropBag) (st : PropBag × ExprGlobals) (key : String) :
    PropBag × ExprGlobals :=
  let g : ExprGlobals := { st.2 with accumulated := getProp st.1 key }
  (setProp st.1 key
    ((scReduceExpression createExpression cps key).evalValue g
      { id := none, properties := clusterProperties, geometry := 0 }), g)

/-- The installed `reduce` callback as a fold of `scReduceStep` over the
names in key enumeration order, starting from the accumulated bag and the
shared globals. -/
def scReduceCallback (createExpression : CreateExpression) (cps : ClusterProperties)
    (globals : ExprGlobals) (accumulated clusterProperties : PropBag) :
    PropBag × ExprGlobals :=
  (cps.map (fun e => e.1)).foldl
    (scReduceStep createExpression cps clusterProperties)
    (accumulated, globals)

/-- Modelled from the spec: the diff payload consumed by `applySourceDiff`
(the repository file `geojson_source_diff.ts` is not among the given
sources). Per the spec it carries add/update/remove operations keyed by
feature identifier; updates are subsumed here by re-adding under the same
key. -/
structure GeoJSONSourceDiff where
  removeAll : Bool := false
  remove : List JSPrim := []
  add : List GeoFeature := []
deriving DecidableEq, Repr

/-- The Updateable Feature Store: a map from feature identifier to feature,
as an ordered association list with unique keys (JS `Map` iterates in
insertion order). -/
abbrev UpdateableStore := List (JSPrim × GeoFeature)

/-- Map-style insertion: replace the value in place if the key exists, else
append. -/
def storeSet (store : UpdateableStore) (k : JSPrim) (f : GeoFeature) : UpdateableStore :=
  match store with
  | [] => [(k, f)]
  | (k0, f0) :: rest =>
      if k0 = k then (k0, f) :: rest else (k0, f0) :: storeSet rest k f

/-- Modelled from the spec: the promotion rule for feature identifiers
(`geojson_source_diff.ts` is not among the given sources) — the identifier
is the value of the configured `promoteId` property when one is configured,
else the feature's native `id`. -/
def resolveFeatureId (promoteId : Option String) (f : GeoFeature) : Option JSPrim :=
  match promoteId with
  | some key => getProp f.properties key
  | none => f.id

/-- Whether a feature resolves a non-null identifier under the promotion
rule. -/
def hasNonNullId (promoteId : Option String) (f : GeoFeature) : Bool :=
  match resolveFeatureId promoteId f with
  | some v => v != .jnull
  | none => false

/-- Modelled from the spec: `isUpdateableGeoJSON` (from
`geojson_source_diff.ts`, not among the given sources) — the freshly
obtained value qualifies when it is a feature collection all of whose
features resolve non-null identifiers under the promotion rule. -/
def isUpdateableGeoJSON (data : JSValue) (promoteId : Option String) : Bool :=
  match data with
  | .object o =>
      match o.type, o.features with
      | some "FeatureCollection", some fs => fs.all (hasNonNullId promoteId)
      | _, _ => false
  | _ => false

/-- Modelled from the spec: `toUpdateable` (from `geojson_source_diff.ts`,
not among the given sources) — build the store from the collection's
features keyed by their resolved identifiers. -/
def toUpdateable (data : JSValue) (promoteId : Option String) : UpdateableStore :=
  match data with
  | .object o =>
      (o.features.getD []).foldl
        (fun st f => storeSet st ((resolveFeatureId promoteId f).getD .jnull) f) []
  | _ => []

/-- Modelled from the spec: `applySourceDiff` (from
`geojson_source_diff.ts`, not among the given sources) — mutate the store in
place: optionally clear it, remove the listed identifiers, then add/update
features under their resolved identifiers. -/
def applySourceDiff (store : UpdateableStore) (diff : GeoJSONSourceDiff)
    (promoteId : Option String) : UpdateableStore :=
  let store := if diff.removeAll then [] else store
  let store := diff.remove.foldl (fun st k => st.filter (fun e => e.1 != k)) store
  diff.add.foldl
    (fun st f => storeSet st ((resolveFeatureId promoteId f).getD .jnull) f) store

/-- Request descriptor handed to the transport; only the resource-timing
flag is inspected by this worker source. -/
structure RequestParameters where
  url : String := ""
  collectResourceTiming : Bool := false
deriving DecidableEq, Repr

/-- The `LoadGeoJSONParameters` record. `data` is declared `string` in the
source but callers can hand any value, which the code guards with a
`typeof` check, so it is modelled as a `JSValue`. `filter` and the cluster
fields mirror `GeoJSONWorkerOptions`; `geojsonVtOptions` is opaque
pass-through. -/
structure LoadGeoJSONParameters where
  source : Option String := none
  request : Option RequestParameters := none
  data : Option JSValue := none
  dataDiff : Option GeoJSONSourceDiff := none
  cluster : Bool := false
  promoteId : Option String := none
  filter : Option ExprSpec := none
  geojsonVtOptions : Option Nat := none
  superclusterOptions : Option SuperclusterOptions := none
  clusterProperties : Option ClusterProperties := none
  collectResourceTiming : Bool := false

/-- The `getSuperclusterOptions` helper: returns the given options unchanged
unless both `clusterProperties` and `superclusterOptions` are present, in
which case it compiles the per-name expression tables and installs the
`map` and `reduce` callbacks on the options. -/
def getSuperclusterOptions (createExpression : CreateExpression)
    (params : LoadGeoJSONParameters) : Option SuperclusterOptions :=
  match params.clusterProperties, params.superclusterOptions with
  | some clusterProperties, some superclusterOptions =>
      some { superclusterOptions with
        map := some (scMapCallback createExpression clusterProperties),
        reduce := some (scReduceCallback createExpression clusterProperties) }
  | _, _ => params.superclusterOptions

/-- The `loadGeoJSON` method: resolve the input in priority order
`request` then string `data` then `dataDiff`, maintaining the updateable
store, and fail with a source-qualified message otherwise. The external
transport and `JSON.parse` are parameters; the result pairs the produced
GeoJSON value with the new `_dataUpdateable` field. -/
def loadGeoJSON (fetch : RequestParameters → Except String JSValue)
    (jsonParse : String → Option JSValue)
    (dataUpdateable : Option UpdateableStore)
    (params : LoadGeoJSONParameters) :
    Except String (JSValue × Option UpdateableStore) :=
  match params.request with
  | some request =>
      match fetch request with
      | .error e => .error e
      | .ok data =>
          .ok (data,
            if isUpdateableGeoJSON data params.promoteId then
              some (toUpdateable data params.promoteId)
            else none)
  | none =>
      match params.data with
      | some (.string s) =>
          match jsonParse s with
          | some parsed =>
              .ok (parsed,
                if isUpdateableGeoJSON parsed params.promoteId then
                  some (toUpdateable parsed params.promoteId)
                else none)
          | none => .error (invalidDataMessage params.source)
      | _ =>
          match params.dataDiff with
          | some dataDiff =>
              match dataUpdateable with
              | some store =>
                  let store := applySourceDiff store dataDiff params.promoteId
                  .ok (.object { type := some "FeatureCollection",
                                 features := some (store.map (fun e => e.2)) },
                       some store)
              | none => .error (cannotUpdateMessage params.source)
          | none => .error (invalidDataMessage params.source)

/-- Outcome delivered to a `loadData` caller: `{abandoned: true}`, the
success record (its optional resource-timing payload is external performance
data and not modelled), or a rejection with an error message. -/
inductive LoadDataResult where
  | abandoned
  | ok
  | err (message : String)
deriving DecidableEq, Repr

/-- Observable events of the coordinator, in program order: aborting an
AbortController, settling a caller's promise, registering the new pending
pair, and invoking `loadGeoJSON`. Callers and controllers are identified by
numbers. -/
inductive WorkerEvent where
  | abortToken (t : Nat)
  | settle (c : Nat) (r : LoadDataResult)
  | registerPending (c t : Nat)
  | startLoad (c t : Nat)
deriving DecidableEq, Repr

/-- The mutable fields of `GeoJSONWorkerSource` the claims touch, over an
opaque spatial-index type. `_dataUpdateable` starts as an empty map (the
field initializer `new Map()`), and `loaded` is the per-uid marker set the
reload path uses (`loadData` resets it to `{}`). -/
structure WorkerState (Index : Type) where
  pendingPromise : Option Nat := none
  pendingRequest : Option Nat := none
  geoJSONIndex : Option Index := none
  dataUpdateable : Option UpdateableStore := some []
  loaded : List Nat := []

/-- The external collaborators `loadData` composes, as one record: the
transport, `JSON.parse`, the expression compiler, `geojson-rewind`
(in-place winding normalization, observed only through its result), and the
two index constructors (`geojson-vt`, and `new Supercluster(opts).load`,
which receives whatever `data.features` holds). The index constructors can
throw, which the `try` block catches. -/
structure Externals (Index : Type) where
  fetch : RequestParameters → Except String JSValue
  jsonParse : String → Option JSValue
  createExpression : CreateExpression
  rewind : GeoObj → GeoObj
  geojsonvt : GeoObj → Option Nat → Except String Index
  superclusterLoad : Option SuperclusterOptions → Option (List GeoFeature) →
    Except String Index

/-- The index construction of `loadData`:
`params.cluster ? new Supercluster(getSuperclusterOptions(params)).load(data.features) : geojsonvt(data, params.geojsonVtOptions)`. -/
def buildIndexCore {Index : Type} (ext : Externals Index)
    (params : LoadGeoJSONParameters) (data : GeoObj) : Except String Index :=
  if params.cluster then
    ext.superclusterLoad (getSuperclusterOptions ext.createExpression params) data.features
  else
    ext.geojsonvt data params.geojsonVtOptions

/-- The body of `loadData`'s `try` block: when a filter is configured,
compile it against `filterCompileSpec`; a compile failure throws the joined
`key: message` list; success filters the features (a missing `features`
array makes the JS `.filter` call throw) and replaces the working
collection with a fresh feature collection; then the index is built. -/
def tryBuildIndex {Index : Type} (ext : Externals Index)
    (params : LoadGeoJSONParameters) (data : GeoObj) : Except String Index :=
  match params.filter with
  | some filter =>
      match ext.createExpression filter (some filterCompileSpec) with
      | .error errs =>
          .error (String.intercalate ", "
            (errs.map (fun e => e.key ++ ": " ++ e.message)))
      | .success compiled =>
          match data.features with
          | none => .error featuresTypeErrorMessage
          | some fs =>
              let features := fs.filter
                (fun f => (compiled { accumulated := none, zoom := 0 } f).truthy)
              buildIndexCore ext params
                { type := some "FeatureCollection", features := some features }
  | none => buildIndexCore ext params data

/-- The synchronous prologue of `loadData`: abort the pending
AbortController if any, resolve the pending promise with
`{abandoned: true}` if any, then register the new call as the sole pending
pair and invoke `loadGeoJSON`. `c` and `t` identify the new caller's
resolve function and its fresh AbortController. -/
def loadDataStart {Index : Type} (st : WorkerState Index) (c t : Nat) :
    WorkerState Index × List WorkerEvent :=
  let abortEvents := match st.pendingRequest with
    | some tok => [WorkerEvent.abortToken tok]
    | none => []
  let abandonEvents := match st.pendingPromise with
    | some cb => [WorkerEvent.settle cb .abandoned]
    | none => []
  ({ st with pendingPromise := some c, pendingRequest := some t },
   abortEvents ++ abandonEvents ++ [.registerPending c t, .startLoad c t])

/-- The continuation of `loadData` once the `loadGeoJSON` promise settles,
for caller `c`. A rejection runs the `.catch` handler: it only rejects the
outer promise — the pending bookkeeping is not touched. A fulfillment first
records `loadGeoJSON`'s store update and deletes the pending bookkeeping,
then validates (`!data`, `typeof`), normalizes winding, runs the `try`
block, and on success stores the index, clears `loaded` and resolves. -/
def loadDataContinue {Index : Type} (ext : Externals Index)
    (params : LoadGeoJSONParameters) (c : Nat) (st : WorkerState Index)
    (loadResult : Except String (JSValue × Option UpdateableStore)) :
    WorkerState Index × List WorkerEvent :=
  match loadResult with
  | .error e => (st, [.settle c (.err e)])
  | .ok (data, newStore) =>
      let st := { st with dataUpdateable := newStore,
                          pendingPromise := none, pendingRequest := none }
      if ¬ data.truthy then
        (st, [.settle c (.err noDataMessage)])
      else if ¬ data.typeofObject then
        (st, [.settle c (.err (invalidDataMessage params.source))])
      else
        let obj := ext.rewind data.asObject
        match tryBuildIndex ext params obj with
        | .error e => (st, [.settle c (.err e)])
        | .ok idx =>
            ({ st with geoJSONIndex := some idx, loaded := [] },
             [.settle c .ok])

/-- The whole `loadData` call when `loadGeoJSON` runs to completion with no
interleaved call (the synchronous view): prologue, then `loadGeoJSON` on
the registered state, then the continuation. -/
def loadData {Index : Type} (ext : Externals Index) (st : WorkerState Index)
    (c t : Nat) (params : LoadGeoJSONParameters) :
    WorkerState Index × List WorkerEvent :=
  let started := loadDataStart st c t
  let r := loadGeoJSON ext.fetch ext.jsonParse started.1.dataUpdateable params
  let finished := loadDataContinue ext params c started.1 r
  (finished.1, started.2 ++ finished.2)

/-- The `removeSource` method: if a load is pending, resolve its callback
with `{abandoned: true}`; the state is not modified. -/
def removeSource {Index : Type} (st : WorkerState Index) :
    WorkerState Index × List WorkerEvent :=
  match st.pendingPromise with
  | some cb => (st, [WorkerEvent.settle cb .abandoned])
  | none => (st, [])

/-- One schedulable step of the worker: a `loadData` call's synchronous
prologue, the (later) settlement of that call's `loadGeoJSON` promise with
some outcome — running the continuation, with the store effect of
`loadGeoJSON` applied at that point — or a `removeSource` call. The
settlement outcome is supplied by the schedule: cancellation is
cooperative, so a superseded call's load may still fulfill. -/
inductive Action where
  | callLoadData (c t : Nat) (params : LoadGeoJSONParameters)
  | settleLoad (c : Nat) (params : LoadGeoJSONParameters)
      (r : Except String (JSValue × Option UpdateableStore))
  | callRemoveSource

/-- Interpretation of one action on the worker state. -/
def runAction {Index : Type} (ext : Externals Index) (st : WorkerState Index) :
    Action → WorkerState Index × List WorkerEvent
  | .callLoadData c t _ => loadDataStart st c t
  | .settleLoad c params r => loadDataContinue ext params c st r
  | .callRemoveSource => removeSource st

/-- Interpretation of an interleaving of calls and settlements, collecting
events in order. -/
def runTrace {Index : Type} (ext : Externals Index) (st : WorkerState Index) :
    List Action → WorkerState Index × List WorkerEvent
  | [] => (st, [])
  | a :: rest =>
      let step := runAction ext st a
      let next := runTrace ext step.1 rest
      (next.1, step.2 ++ next.2)

/-- A typed-array view: backing buffer (the `ArrayBuffer`), byte offset and
byte length. Bytes are naturals. -/
structure ByteView where
  backing : List Nat
  byteOffset : Nat := 0
  byteLength : Nat := 0
deriving DecidableEq, Repr

/-- The bytes the view exposes. -/
def ByteView.visible (v : ByteView) : List Nat :=
  (v.backing.drop v.byteOffset).take v.byteLength

/-- The copy `new Uint8Array(pbf)` makes: a fresh tight buffer holding
exactly the visible bytes. -/
def ByteView.tightCopy (v : ByteView) : ByteView :=
  { backing := v.visible, byteOffset := 0, byteLength := v.visible.length }

/-- The compatibility step of `loadGeoJSONTile`: copy the encoder's output
to a tight buffer when it is a sub-view of a larger backing buffer. -/
def normalizeView (v : ByteView) : ByteView :=
  if v.byteOffset ≠ 0 ∨ v.byteLength ≠ v.backing.length then v.tightCopy else v

/-- The tile coordinate `params.tileID.canonical`. -/
structure TileParams where
  z : Nat := 0
  x : Nat := 0
  y : Nat := 0
deriving DecidableEq, Repr

/-- The result of `loadGeoJSONTile`: the feature-access wrapper (modelled as
the wrapped feature list) and the raw `ArrayBuffer` handed across the
boundary. -/
structure LoadVectorTileResult where
  vectorTile : List GeoFeature
  rawData : List Nat
deriving DecidableEq, Repr

/-- The `loadGeoJSONTile` method: return nothing when no index has been
built or the index has no tile at the address; otherwise wrap the tile's
features, encode them (`vt-pbf`, a parameter), tighten the buffer if
needed, and return wrapper plus raw buffer. `getTile` is the index's query
method. -/
def loadGeoJSONTile {Index : Type}
    (getTile : Index → Nat → Nat → Nat → Option (List GeoFeature))
    (vtpbf : List GeoFeature → ByteView)
    (geoJSONIndex : Option Index) (params : TileParams) :
    Option LoadVectorTileResult :=
  match geoJSONIndex with
  | none => none
  | some index =>
      match getTile index params.z params.x params.y with
      | none => none
      | some tileFeatures =>
          let geojsonWrapper := tileFeatures
          let pbf := normalizeView (vtpbf geojsonWrapper)
          some { vectorTile := geojsonWrapper, rawData := pbf.backing }

/-- What a caller observes of its promise: the first settlement call aimed
at it (later resolve/reject calls on an already settled JS promise are
no-ops). -/
def observedOutcome (events : List WorkerEvent) (c : Nat) : Option LoadDataResult :=
  events.findSome? (fun ev =>
    match ev with
    | .settle c2 r => if c2 = c then some r else none
    | _ => none)

/-- Concrete externals over a `GeoObj`-valued index: the index constructor
returns its input collection, so the live index identifies the call that
built it; `rewind` is the identity (the exhibited collections hold no
polygon rings to reorient); network, parsing and clustering are inert. -/
def identityExternals : Externals GeoObj where
  fetch := fun _ => .error "no network"
  jsonParse := fun _ => none
  createExpression := fun _ _ => .error []
  rewind := fun o => o
  geojsonvt := fun o _ => .ok o
  superclusterLoad := fun _ _ => .error "not clustered"

/-- A feature collection whose features carry the given numeric ids. -/
def fcWithIds (ids : List Int) : GeoObj :=
  { type := some "FeatureCollection",
    features := some (ids.map (fun n => { id := some (.jnum n) })) }

/-- Minimal load parameters naming a source. -/
def plainParams (src : String) : LoadGeoJSONParameters := { source := some src }

/-- A schedule in which two loads are submitted back to back, the second
one's `loadGeoJSON` fulfills first, and the superseded first call's
`loadGeoJSON` fulfills afterwards (possible under cooperative cancellation,
e.g. with a custom `loadGeoJSON` that does not observe the abort signal). -/
def raceTrace : List Action :=
  [.callLoadData 1 10 (plainParams "s"), .callLoadData 2 11 (plainParams "s"),
   .settleLoad 2 (plainParams "s") (.ok (.object (fcWithIds [2]), none)),
   .settleLoad 1 (plainParams "s") (.ok (.object (fcWithIds [1]), none))]

/-- An expression compiler that fails (with a recognizable key and message)
exactly when handed the property spec `loadData` uses for filters, and
succeeds on every other spec: the error surfacing to the caller shows which
options the filter was compiled with. -/
def probeCreateExpression : CreateExpression := fun _ ps =>
  if ps = some filterCompileSpec then .error [⟨"k", "m"⟩]
  else .success (fun _ _ => .jnull)

/-- The identity externals with the probing expression compiler plugged in. -/
def probeExternals : Externals GeoObj :=
  { identityExternals with createExpression := probeCreateExpression }

/-- A concrete worker state with caller 5 pending on controller 7. -/
def pendingState : WorkerState Nat :=
  { pendingPromise := some 5, pendingRequest := some 7 }

/-- A transport that always yields the given value. -/
def fetchConst (v : JSValue) : RequestParameters → Except String JSValue := fun _ => .ok v

/-- A parser that always yields the given value. -/
def parseConst (v : JSValue) : String → Option JSValue := fun _ => some v

/-- A parser that always fails. -/
def parseNone : String → Option JSValue := fun _ => none

/-- A compiler whose compiled expressions echo the evaluation context's
accumulated slot (null when the slot is empty): it makes the reduce
callback's slot threading observable. -/
def accEchoCreate : CreateExpression := fun _ _ =>
  .success (fun g _ =>
    match g.accumulated with
    | some p => p
    | none => .jnull)

/-- A one-entry cluster-property spec: output name `sum`, bare operator
`+` as the reduce term, and a literal map expression. -/
def sumClusterProps : ClusterProperties :=
  [("sum", .lit (.jstr "+"), .lit (.jnum 1))]

/-- Externals whose expression compiler always succeeds with a filter
keeping exactly the features with an even numeric id. -/
def evenFilterExternals : Externals GeoObj :=
  { identityExternals with
    createExpression := fun _ _ => .success (fun _ f =>
      .jbool (match f.id with
              | some (.jnum n) => n % 2 == 0
              | _ => false)) }

/-! Helper lemmas shared by the claim theorems. -/

theorem loadDataContinue_error {Index : Type} (ext : Externals Index)
    (params : LoadGeoJSONParameters) (c : Nat) (st : WorkerState Index) (e : String) :
    loadDataContinue ext params c st (.error e) = (st, [.settle c (.err e)]) := rfl

theorem getProp_setProp_self (bag : PropBag) (k : String) (v : JSPrim) :
    getProp (setProp bag k v) k = some v := by
  induction bag with
  | nil => simp [setProp, getProp]
  | cons hd tl ih =>
      by_cases h : hd.1 = k
      · simp [setProp, getProp, h]
      · simp [setProp, getProp, h, ih]

theorem getProp_setProp_ne (bag : PropBag) (k k2 : String) (v : JSPrim)
    (h : k ≠ k2) : getProp (setProp bag k v) k2 = getProp bag k2 := by
  induction bag with
  | nil => simp [setProp, getProp, h]
  | cons hd tl ih =>
      by_cases h2 : hd.1 = k
      · simp [setProp, getProp, h2, h]
      · simp [setProp, getProp, h2, ih]

/-- C1: whenever a pending load exists, a new `loadData` call resolves the
pending callback with `{abandoned: true}` — and aborts the pending
cancellation token — strictly before registering its own pending pair and
starting new work; the superseded callback is never settled with an error
by the prologue; and `removeSource` resolves the pending callback with
`{abandoned: true}` without touching the state. -/
theorem C1_pending_abandoned {Index : Type} (st : WorkerState Index) (c t cb : Nat)
    (h : st.pendingPromise = some cb) :
    (∃ pre, (loadDataStart st c t).2 = pre ++ [.registerPending c t, .startLoad c t] ∧
      WorkerEvent.settle cb .abandoned ∈ pre ∧
      (∀ tok, st.pendingRequest = some tok → WorkerEvent.abortToken tok ∈ pre) ∧
      (∀ r, WorkerEvent.settle cb r ∈ (loadDataStart st c t).2 → r = .abandoned)) ∧
    (loadDataStart st c t).1.pendingPromise = some c ∧
    (loadDataStart st c t).1.pendingRequest = some t ∧
    (removeSource st).2 = [WorkerEvent.settle cb .abandoned] ∧
    (removeSource st).1 = st := by
  unfold loadDataStart removeSource
  cases hr : st.pendingRequest with
  | none =>
      refine ⟨⟨[WorkerEvent.settle cb .abandoned], ?_, ?_, ?_, ?_⟩, rfl, rfl, ?_, ?_⟩ <;>
        simp_all
  | some tok =>
      refine ⟨⟨[WorkerEvent.abortToken tok, WorkerEvent.settle cb .abandoned],
        ?_, ?_, ?_, ?_⟩, rfl, rfl, ?_, ?_⟩ <;> simp_all

/-- Witness for C1 at a concrete state with a pending pair. -/
theorem C1_pending_abandoned_witness :
    pendingState.pendingPromise = some 5 ∧
    ((∃ pre, (loadDataStart pendingState 1 2).2 =
          pre ++ [.registerPending 1 2, .startLoad 1 2] ∧
        WorkerEvent.settle 5 .abandoned ∈ pre ∧
        (∀ tok, pendingState.pendingRequest = some tok →
          WorkerEvent.abortToken tok ∈ pre) ∧
        (∀ r, WorkerEvent.settle 5 r ∈ (loadDataStart pendingState 1 2).2 →
          r = .abandoned)) ∧
      (loadDataStart pendingState 1 2).1.pendingPromise = some 1 ∧
      (loadDataStart pendingState 1 2).1.pendingRequest = some 2 ∧
      (removeSource pendingState).2 = [WorkerEvent.settle 5 .abandoned] ∧
      (removeSource pendingState).1 = pendingState) :=
  ⟨rfl, C1_pending_abandoned pendingState 1 2 5 rfl⟩

/-- C2 fails as stated: in `raceTrace` the first call is superseded (its
caller observes `{abandoned: true}`) and the second call completes
successfully first, yet the first call's late-fulfilling continuation runs
afterwards and overwrites `_geoJSONIndex`, so the live index is the
superseded call's collection (ids `[1]`), not the last call's (`[2]`). -/
theorem C2_counterexample :
    observedOutcome (runTrace identityExternals {} raceTrace).2 1 = some .abandoned ∧
    WorkerEvent.settle 2 .ok ∈ (runTrace identityExternals {} raceTrace).2 ∧
    (runTrace identityExternals {} raceTrace).1.geoJSONIndex = some (fcWithIds [1]) ∧
    fcWithIds [1] ≠ fcWithIds [2] := by
  refine ⟨rfl, ?_, rfl, by decide⟩
  decide

/-- C2 amended: a superseded call whose `loadGeoJSON` rejects (as it does
when the aborted cancellation token is observed) never overwrites the
worker state — appending its rejecting settlement to any schedule leaves
the final state, in particular the live `_geoJSONIndex`, unchanged. Only a
superseded call whose load still fulfills after the later call completes
can overwrite the index (see the counterexample). -/
theorem C2_superseded_rejection_no_overwrite {Index : Type} (ext : Externals Index)
    (st : WorkerState Index) (as : List Action) (c : Nat)
    (params : LoadGeoJSONParameters) (e : String) :
    (runTrace ext st (as ++ [.settleLoad c params (.error e)])).1 =
      (runTrace ext st as).1 := by
  induction as generalizing st with
  | nil => simp [runTrace, runAction, loadDataContinue_error]
  | cons a rest ih => simp [runTrace, ih]

/-- C3 fails as stated: when `loadGeoJSON` itself rejects, the `.catch`
handler rejects the caller's promise (the call settles with the error) but
the pending bookkeeping is not cleared — `_pendingPromise` and
`_pendingRequest` keep their stale values. -/
theorem C3_counterexample :
    (loadDataContinue identityExternals (plainParams "s") 5
        { pendingPromise := some 5, pendingRequest := some 7 }
        (.error "network error")).2 = [WorkerEvent.settle 5 (.err "network error")] ∧
    (loadDataContinue identityExternals (plainParams "s") 5
        { pendingPromise := some 5, pendingRequest := some 7 }
        (.error "network error")).1.pendingPromise = some 5 ∧
    (loadDataContinue identityExternals (plainParams "s") 5
        { pendingPromise := some 5, pendingRequest := some 7 }
        (.error "network error")).1.pendingRequest = some 7 :=
  ⟨rfl, rfl, rfl⟩

/-- C3 amended: the pending-load bookkeeping is cleared before the call
settles whenever the `loadGeoJSON` promise fulfills — so on the success
path and on every post-load failure path (missing data, invalid input,
filter compile failure, index construction failure) — but when
`loadGeoJSON` itself rejects, the `.catch` handler only rejects: the
bookkeeping is left in place and the state is unchanged. -/
theorem C3_bookkeeping_cleared {Index : Type} (ext : Externals Index)
    (params : LoadGeoJSONParameters) (c : Nat) (st : WorkerState Index)
    (d : JSValue) (ns : Option UpdateableStore) (e : String) :
    ((loadDataContinue ext params c st (.ok (d, ns))).1.pendingPromise = none ∧
     (loadDataContinue ext params c st (.ok (d, ns))).1.pendingRequest = none) ∧
    loadDataContinue ext params c st (.error e) = (st, [.settle c (.err e)]) := by
  refine ⟨?_, loadDataContinue_error ext params c st e⟩
  unfold loadDataContinue
  dsimp only
  split
  · exact ⟨rfl, rfl⟩
  · split
    · exact ⟨rfl, rfl⟩
    · split <;> exact ⟨rfl, rfl⟩

/-- C4: `loadGeoJSON` resolves its input in strict priority order
`request` then `data` then `dataDiff`. With a request present, the result
is exactly the transport's outcome and the literal data and diff are
ignored; with no request and string data, the data is parsed and the diff
is ignored; with neither usable, a present diff is applied to the store;
and with none of the three usable the call fails with the invalid-input
message naming the source. -/
theorem C4_input_priority (fetch : RequestParameters → Except String JSValue)
    (jsonParse : String → Option JSValue) (store : Option UpdateableStore)
    (p : LoadGeoJSONParameters) :
    (∀ r, p.request = some r →
      (∀ v dd, loadGeoJSON fetch jsonParse store { p with data := v, dataDiff := dd } =
        loadGeoJSON fetch jsonParse store p) ∧
      (∀ e, fetch r = .error e → loadGeoJSON fetch jsonParse store p = .error e) ∧
      (∀ d, fetch r = .ok d → ∃ ns, loadGeoJSON fetch jsonParse store p = .ok (d, ns))) ∧
    (∀ s, p.request = none → p.data = some (.string s) →
      (∀ dd, loadGeoJSON fetch jsonParse store { p with dataDiff := dd } =
        loadGeoJSON fetch jsonParse store p) ∧
      (jsonParse s = none →
        loadGeoJSON fetch jsonParse store p = .error (invalidDataMessage p.source)) ∧
      (∀ parsed, jsonParse s = some parsed →
        ∃ ns, loadGeoJSON fetch jsonParse store p = .ok (parsed, ns))) ∧
    (∀ diff, p.request = none → (∀ s, p.data ≠ some (.string s)) →
      p.dataDiff = some diff →
      (∀ st0, store = some st0 → ∃ v,
        loadGeoJSON fetch jsonParse store p =
          .ok (v, some (applySourceDiff st0 diff p.promoteId))) ∧
      (store = none →
        loadGeoJSON fetch jsonParse store p = .error (cannotUpdateMessage p.source))) ∧
    (p.request = none → (∀ s, p.data ≠ some (.string s)) → p.dataDiff = none →
      loadGeoJSON fetch jsonParse store p = .error (invalidDataMessage p.source)) := by
  refine ⟨?_, ?_, ?_, ?_⟩
  · intro r hr
    refine ⟨?_, ?_, ?_⟩
    · intro v dd
      simp only [loadGeoJSON, hr]
    · intro e he
      simp only [loadGeoJSON, hr, he]
    · intro d hd
      refine ⟨if isUpdateableGeoJSON d p.promoteId then
        some (toUpdateable d p.promoteId) else none, ?_⟩
      simp only [loadGeoJSON, hr, hd]
  · intro s hr hd
    refine ⟨?_, ?_, ?_⟩
    · intro dd
      simp only [loadGeoJSON, hr, hd]
    · intro hp
      simp only [loadGeoJSON, hr, hd, hp]
    · intro parsed hp
      refine ⟨if isUpdateableGeoJSON parsed p.promoteId then
        some (toUpdateable parsed p.promoteId) else none, ?_⟩
      simp only [loadGeoJSON, hr, hd, hp]
  · intro diff hr hns hdiff
    constructor
    · intro st0 hst
      refine ⟨.object { type := some "FeatureCollection",
                        features := some ((applySourceDiff st0 diff p.promoteId).map
                          (fun e => e.2)) }, ?_⟩
      cases hd : p.data with
      | none => simp only [loadGeoJSON, hr, hd, hdiff, hst]
      | some v =>
          cases v with
          | string s => exact absurd hd (hns s)
          | _ => simp only [loadGeoJSON, hr, hd, hdiff, hst]
    · intro hst
      cases hd : p.data with
      | none => simp only [loadGeoJSON, hr, hd, hdiff, hst]
      | some v =>
          cases v with
          | string s => exact absurd hd (hns s)
          | _ => simp only [loadGeoJSON, hr, hd, hdiff, hst]
  · intro hr hns hdiff
    cases hd : p.data with
    | none => simp only [loadGeoJSON, hr, hd, hdiff]
    | some v =>
        cases v with
        | string s => exact absurd hd (hns s)
        | _ => simp only [loadGeoJSON, hr, hd, hdiff]

/-- Witness for C4: each of the four dispatch cases at a concrete input —
a present request wins over data and diff; string data wins over a diff;
a diff is applied when data is not a string; and nothing usable yields the
source-qualified invalid-input error. -/
theorem C4_input_priority_witness :
    (loadGeoJSON (fetchConst (.object (fcWithIds [1]))) parseNone (some [])
        { source := some "src", request := some {}, data := some (.number 3), dataDiff := none } =
      loadGeoJSON (fetchConst (.object (fcWithIds [1]))) parseNone (some [])
        { source := some "src", request := some {}, data := some .null, dataDiff := some {} }) ∧
    (∃ ns, loadGeoJSON (fetchConst .null)
        (parseConst (.number 2)) (some [])
        { source := some "src", data := some (.string "x"), dataDiff := some {} } =
      .ok (.number 2, ns)) ∧
    (∃ v, loadGeoJSON (fetchConst .null) parseNone (some [])
        { source := some "src", data := some (.number 7), dataDiff := some {} } =
      .ok (v, some (applySourceDiff [] {} none))) ∧
    (loadGeoJSON (fetchConst .null) parseNone none
        { source := some "src", data := some (.number 7) } =
      .error (invalidDataMessage (some "src"))) := by
  refine ⟨?_, ?_, ?_, ?_⟩
  · exact ((C4_input_priority (fetchConst (.object (fcWithIds [1]))) parseNone (some [])
      { source := some "src", request := some {}, data := some .null,
        dataDiff := some {} }).1 {} rfl).1 (some (.number 3)) none
  · exact ((C4_input_priority (fetchConst .null) (parseConst (.number 2)) (some [])
      { source := some "src", data := some (.string "x"),
        dataDiff := some {} }).2.1 "x" rfl rfl).2.2 (.number 2) rfl
  · exact ((C4_input_priority (fetchConst .null) parseNone (some [])
      { source := some "src", data := some (.number 7),
        dataDiff := some {} }).2.2.1 {} rfl (fun s h => by simp at h) rfl).1 [] rfl
  · exact (C4_input_priority (fetchConst .null) parseNone none
      { source := some "src", data := some (.number 7) }).2.2.2 rfl
        (fun s h => by simp at h) rfl

/-- C10: with no request, a `data` value that is present but not a string is
never used — the call behaves exactly as if `data` were absent, so it falls
through to the `dataDiff` path when a diff is present, and otherwise fails
with the invalid-GeoJSON-object error naming the source. -/
theorem C10_nonstring_data_ignored (fetch : RequestParameters → Except String JSValue)
    (jsonParse : String → Option JSValue) (store : Option UpdateableStore)
    (p : LoadGeoJSONParameters) (v : JSValue)
    (hreq : p.request = none) (hdata : p.data = some v)
    (hs : ∀ s, v ≠ .string s) :
    loadGeoJSON fetch jsonParse store p =
      loadGeoJSON fetch jsonParse store { p with data := none } ∧
    (p.dataDiff = none →
      loadGeoJSON fetch jsonParse store p = .error (invalidDataMessage p.source)) := by
  constructor
  · cases v with
    | string s => exact absurd rfl (hs s)
    | _ => simp only [loadGeoJSON, hreq, hdata]
  · intro hdiff
    cases v with
    | string s => exact absurd rfl (hs s)
    | _ => simp only [loadGeoJSON, hreq, hdata, hdiff]

/-- Witness for C10: an already-parsed object passed as `data`, with no
diff, is ignored and the call fails with the source-qualified message. -/
theorem C10_nonstring_data_ignored_witness :
    (loadGeoJSON (fetchConst .null) parseNone (some [])
        { source := some "src", data := some (.object (fcWithIds [1])) } =
      loadGeoJSON (fetchConst .null) parseNone (some [])
        { source := some "src", data := none }) ∧
    (loadGeoJSON (fetchConst .null) parseNone (some [])
        { source := some "src", data := some (.object (fcWithIds [1])) } =
      .error (invalidDataMessage (some "src"))) := by
  have h := C10_nonstring_data_ignored (fetchConst .null) parseNone (some [])
    { source := some "src", data := some (.object (fcWithIds [1])) }
    (.object (fcWithIds [1])) rfl rfl (fun s hh => by simp at hh)
  exact ⟨h.1, h.2 rfl⟩

/-- C5 fails as stated: a value that is an object but not of
feature-collection shape (here a bare `Point` geometry object) is not
rejected with the invalid-input error — the call resolves successfully and
the value reaches indexing (the built index holds it). The code checks only
`typeof data === 'object'`, not feature-collection shape. -/
theorem C5_counterexample :
    (loadDataContinue identityExternals (plainParams "s") 1 {}
        (.ok (.object { type := some "Point" }, none))).2 =
      [WorkerEvent.settle 1 .ok] ∧
    (loadDataContinue identityExternals (plainParams "s") 1 {}
        (.ok (.object { type := some "Point" }, none))).1.geoJSONIndex =
      some { type := some "Point" } :=
  ⟨rfl, rfl⟩

/-- C5 amended: after `loadGeoJSON` fulfills, a falsy value (in particular
`null` or `undefined`) rejects with the data-missing error; a truthy value
that is not of object type rejects with the invalid-input error naming the
source; and every truthy object — with no feature-collection-shape check —
proceeds to winding normalization and indexing. -/
theorem C5_result_validation {Index : Type} (ext : Externals Index)
    (params : LoadGeoJSONParameters) (c : Nat) (st : WorkerState Index)
    (ns : Option UpdateableStore) :
    (∀ d : JSValue, ¬ d.truthy →
      loadDataContinue ext params c st (.ok (d, ns)) =
        ({ st with dataUpdateable := ns, pendingPromise := none, pendingRequest := none },
         [.settle c (.err noDataMessage)])) ∧
    (∀ d : JSValue, d.truthy → ¬ d.typeofObject →
      loadDataContinue ext params c st (.ok (d, ns)) =
        ({ st with dataUpdateable := ns, pendingPromise := none, pendingRequest := none },
         [.settle c (.err (invalidDataMessage params.source))])) ∧
    (∀ o : GeoObj,
      loadDataContinue ext params c st (.ok (.object o, ns)) =
        (match tryBuildIndex ext params (ext.rewind o) with
         | .error e =>
             ({ st with dataUpdateable := ns, pendingPromise := none,
                        pendingRequest := none },
              [.settle c (.err e)])
         | .ok idx =>
             ({ st with dataUpdateable := ns, pendingPromise := none,
                        pendingRequest := none, geoJSONIndex := some idx, loaded := [] },
              [.settle c .ok]))) := by
  refine ⟨?_, ?_, ?_⟩
  · intro d h
    simp only [loadDataContinue, if_pos h]
  · intro d h1 h2
    simp only [loadDataContinue, if_neg (not_not_intro h1), if_pos h2]
  · intro o
    have h1 : ¬ ¬ (JSValue.object o).truthy = true := by simp [JSValue.truthy]
    have h2 : ¬ ¬ (JSValue.object o).typeofObject = true := by simp [JSValue.typeofObject]
    simp only [loadDataContinue, if_neg h1, if_neg h2, JSValue.asObject]

/-- Witness for C5 at concrete values: `null` is rejected as missing data, a
number is rejected as invalid input naming the source, and a feature
collection proceeds to indexing. -/
theorem C5_result_validation_witness :
    (loadDataContinue identityExternals (plainParams "s") 1 {} (.ok (.null, none))).2 =
      [WorkerEvent.settle 1 (.err noDataMessage)] ∧
    (loadDataContinue identityExternals (plainParams "s") 1 {} (.ok (.number 7, none))).2 =
      [WorkerEvent.settle 1 (.err (invalidDataMessage (some "s")))] ∧
    loadDataContinue identityExternals (plainParams "s") 1 {}
        (.ok (.object (fcWithIds [1]), none)) =
      (⟨none, none, some (fcWithIds [1]), none, []⟩, [.settle 1 .ok]) :=
  ⟨congrArg Prod.snd ((C5_result_validation identityExternals (plainParams "s") 1 {} none).1
      .null (by decide)),
   congrArg Prod.snd ((C5_result_validation identityExternals (plainParams "s") 1 {} none).2.1
      (.number 7) (by decide) (by decide)),
   (C5_result_validation identityExternals (plainParams "s") 1 {} none).2.2 (fcWithIds [1])⟩

/-- C6 fails as stated on one point: the filter is compiled as data-driven,
not non-data-driven — the property spec passed to the compiler has
`'property-type': 'data-driven'`, as the probing compiler (which errors
exactly when handed that spec) observes at the call site. -/
theorem C6_counterexample :
    filterCompileSpec.propertyType = "data-driven" ∧
    tryBuildIndex probeExternals { filter := some (.lit (.jbool true)) } (fcWithIds [1]) =
      .error "k: m" :=
  ⟨rfl, rfl⟩

/-- C6 amended: a configured filter is compiled boolean-typed, data-driven
(not non-data-driven) and non-transitioning; on compile failure the load
fails with the single message joining each error's key and message,
comma-separated; on success the collection handed to the index builder
holds exactly the features for which the compiled filter evaluates truthy
at zoom 0, in their original order. -/
theorem C6_filter_semantics {Index : Type} (ext : Externals Index)
    (params : LoadGeoJSONParameters) (fexpr : ExprSpec) (data : GeoObj)
    (hf : params.filter = some fexpr) :
    filterCompileSpec = { type := "boolean", propertyType := "data-driven",
                          overridable := false, transition := false } ∧
    (∀ errs, ext.createExpression fexpr (some filterCompileSpec) = .error errs →
      tryBuildIndex ext params data =
        .error (String.intercalate ", "
          (errs.map (fun e => e.key ++ ": " ++ e.message)))) ∧
    (∀ compiled fs, ext.createExpression fexpr (some filterCompileSpec) = .success compiled →
      data.features = some fs →
      tryBuildIndex ext params data =
        buildIndexCore ext params
          { type := some "FeatureCollection",
            features := some (fs.filter
              (fun f => (compiled { accumulated := none, zoom := 0 } f).truthy)) }) := by
  refine ⟨rfl, ?_, ?_⟩
  · intro errs he
    simp only [tryBuildIndex, hf, he]
  · intro compiled fs hc hfs
    simp only [tryBuildIndex, hf, hc, hfs]

/-- Witness for C6: the probing compiler's failure surfaces as the joined
`key: message` string, and the even-id filter keeps exactly the even-id
features in order. -/
theorem C6_filter_semantics_witness :
    tryBuildIndex probeExternals { filter := some (.lit (.jbool false)) } (fcWithIds [2]) =
      .error ("k" ++ ": " ++ "m") ∧
    tryBuildIndex evenFilterExternals { filter := some (.lit (.jbool false)) }
        (fcWithIds [1, 2, 3, 4]) =
      .ok (fcWithIds [2, 4]) :=
  ⟨(C6_filter_semantics probeExternals _ _ (fcWithIds [2]) rfl).2.1 [⟨"k", "m"⟩] rfl,
   (C6_filter_semantics evenFilterExternals _ _ (fcWithIds [1, 2, 3, 4]) rfl).2.2 _ _ rfl rfl⟩

/-- C7: after a full load (request or literal-data path) yielding a feature
collection, the updateable store is rebuilt exactly when every feature
resolves a non-null identifier under the promotion rule, and discarded
(set to undefined) otherwise; a subsequent diff load fails with the
source-naming error exactly when no store exists, and otherwise applies the
diff in place and materializes the collection from the store's current
values. -/
theorem C7_updateable_store (fetch : RequestParameters → Except String JSValue)
    (jsonParse : String → Option JSValue) (store : Option UpdateableStore)
    (p : LoadGeoJSONParameters) :
    (∀ r fs, p.request = some r →
      fetch r = .ok (.object ⟨some "FeatureCollection", some fs⟩) →
      loadGeoJSON fetch jsonParse store p =
        .ok (.object ⟨some "FeatureCollection", some fs⟩,
          if fs.all (hasNonNullId p.promoteId) then
            some (toUpdateable (.object ⟨some "FeatureCollection", some fs⟩) p.promoteId)
          else none)) ∧
    (∀ s fs, p.request = none → p.data = some (.string s) →
      jsonParse s = some (.object ⟨some "FeatureCollection", some fs⟩) →
      loadGeoJSON fetch jsonParse store p =
        .ok (.object ⟨some "FeatureCollection", some fs⟩,
          if fs.all (hasNonNullId p.promoteId) then
            some (toUpdateable (.object ⟨some "FeatureCollection", some fs⟩) p.promoteId)
          else none)) ∧
    (∀ diff, p.request = none → (∀ s, p.data ≠ some (.string s)) →
      p.dataDiff = some diff →
      (store = none →
        loadGeoJSON fetch jsonParse store p = .error (cannotUpdateMessage p.source)) ∧
      (∀ st0, store = some st0 →
        loadGeoJSON fetch jsonParse store p =
          .ok (.object { type := some "FeatureCollection",
                         features := some ((applySourceDiff st0 diff p.promoteId).map
                           (fun e => e.2)) },
               some (applySourceDiff st0 diff p.promoteId)))) := by
  refine ⟨?_, ?_, ?_⟩
  · intro r fs hr hfetch
    simp only [loadGeoJSON, hr, hfetch, isUpdateableGeoJSON]
  · intro s fs hr hd hp
    simp only [loadGeoJSON, hr, hd, hp, isUpdateableGeoJSON]
  · intro diff hr hns hdiff
    constructor
    · intro hst
      cases hd : p.data with
      | none => simp only [loadGeoJSON, hr, hd, hdiff, hst]
      | some v =>
          cases v with
          | string s => exact absurd hd (hns s)
          | _ => simp only [loadGeoJSON, hr, hd, hdiff, hst]
    · intro st0 hst
      cases hd : p.data with
      | none => simp only [loadGeoJSON, hr, hd, hdiff, hst]
      | some v =>
          cases v with
          | string s => exact absurd hd (hns s)
          | _ => simp only [loadGeoJSON, hr, hd, hdiff, hst]

/-- Witness for C7: a collection with ids rebuilds the store; a collection
with an id-less feature discards it; a diff against a discarded store fails
naming the source; a diff against a live store succeeds and materializes
the store's values. -/
theorem C7_updateable_store_witness :
    (loadGeoJSON (fetchConst (.object (fcWithIds [1]))) parseNone (some [])
        { source := some "src", request := some {} } =
      .ok (.object (fcWithIds [1]),
        some (toUpdateable (.object (fcWithIds [1])) none))) ∧
    (loadGeoJSON (fetchConst (.object ⟨some "FeatureCollection", some [{}]⟩)) parseNone
        (some []) { source := some "src", request := some {} } =
      .ok (.object ⟨some "FeatureCollection", some [{}]⟩, none)) ∧
    (loadGeoJSON (fetchConst .null) parseNone none
        { source := some "src", dataDiff := some {} } =
      .error (cannotUpdateMessage (some "src"))) ∧
    (loadGeoJSON (fetchConst .null) parseNone (some [(.jnum 1, {})])
        { source := some "src", dataDiff := some { remove := [.jnum 1] } } =
      .ok (.object { type := some "FeatureCollection", features := some [] },
           some (applySourceDiff [(.jnum 1, {})] { remove := [.jnum 1] } none))) := by
  refine ⟨?_, ?_, ?_, ?_⟩
  · exact (C7_updateable_store (fetchConst (.object (fcWithIds [1]))) parseNone (some [])
      { source := some "src", request := some {} }).1 {}
      ((fcWithIds [1]).features.getD []) rfl rfl
  · exact (C7_updateable_store (fetchConst (.object ⟨some "FeatureCollection", some [{}]⟩))
      parseNone (some []) { source := some "src", request := some {} }).1 {} [{}] rfl rfl
  · exact ((C7_updateable_store (fetchConst .null) parseNone none
      { source := some "src", dataDiff := some {} }).2.2 {} rfl
      (fun s h => by simp at h) rfl).1 rfl
  · exact ((C7_updateable_store (fetchConst .null) parseNone (some [(.jnum 1, {})])
      { source := some "src", dataDiff := some { remove := [.jnum 1] } }).2.2
      { remove := [.jnum 1] } rfl (fun s h => by simp at h) rfl).2 [(.jnum 1, {})] rfl

theorem getProp_foldl_set_of_notMem (v : String → JSPrim) (ks : List String)
    (a : PropBag) (key : String) (h : key ∉ ks) :
    getProp (ks.foldl (fun acc k => setProp acc k (v k)) a) key = getProp a key := by
  induction ks generalizing a with
  | nil => rfl
  | cons k rest ih =>
      have hk : k ≠ key := fun he => h (by simp [he])
      have hr : key ∉ rest := fun hm => h (by simp [hm])
      rw [List.foldl_cons, ih _ hr, getProp_setProp_ne _ _ _ _ hk]

theorem getProp_foldl_set_of_mem (v : String → JSPrim) (ks : List String)
    (a : PropBag) (key : String) (hmem : key ∈ ks) (hnd : ks.Nodup) :
    getProp (ks.foldl (fun acc k => setProp acc k (v k)) a) key = some (v key) := by
  induction ks generalizing a with
  | nil => cases hmem
  | cons k rest ih =>
      rcases List.mem_cons.mp hmem with he | hm
      · subst he
        have hr : key ∉ rest := (List.nodup_cons.mp hnd).1
        rw [List.foldl_cons, getProp_foldl_set_of_notMem _ _ _ _ hr, getProp_setProp_self]
      · rw [List.foldl_cons]
        exact ih _ hm (List.nodup_cons.mp hnd).2

theorem scReduceFold_zoom (cE : CreateExpression) (cps : ClusterProperties)
    (cp : PropBag) (ks : List String) (st : PropBag × ExprGlobals) :
    ((ks.foldl (scReduceStep cE cps cp) st).2).zoom = st.2.zoom := by
  induction ks generalizing st with
  | nil => rfl
  | cons k rest ih => rw [List.foldl_cons, ih]; rfl

theorem scReduceFold_getProp_notMem (cE : CreateExpression) (cps : ClusterProperties)
    (cp : PropBag) (ks : List String) (st : PropBag × ExprGlobals) (key : String)
    (h : key ∉ ks) :
    getProp ((ks.foldl (scReduceStep cE cps cp) st).1) key = getProp st.1 key := by
  induction ks generalizing st with
  | nil => rfl
  | cons k rest ih =>
      have hk : k ≠ key := fun he => h (by simp [he])
      have hr : key ∉ rest := fun hm => h (by simp [hm])
      rw [List.foldl_cons, ih _ hr]
      exact getProp_setProp_ne _ _ _ _ hk

theorem scReduceFold_getProp_mem (cE : CreateExpression) (cps : ClusterProperties)
    (cp : PropBag) (ks : List String) (a : PropBag) (g : ExprGlobals) (key : String)
    (hmem : key ∈ ks) (hnd : ks.Nodup) :
    getProp ((ks.foldl (scReduceStep cE cps cp) (a, g)).1) key =
      some ((scReduceExpression cE cps key).evalValue
        { accumulated := getProp a key, zoom := g.zoom }
        { id := none, properties := cp, geometry := 0 }) := by
  induction ks generalizing a g with
  | nil => cases hmem
  | cons k rest ih =>
      rcases List.mem_cons.mp hmem with he | hm
      · subst he
        have hr : key ∉ rest := (List.nodup_cons.mp hnd).1
        rw [List.foldl_cons, scReduceFold_getProp_notMem _ _ _ _ _ _ hr]
        exact getProp_setProp_self _ _ _
      · have hk : k ≠ key := by
          intro he; subst he; exact (List.nodup_cons.mp hnd).1 hm
        rw [List.foldl_cons]
        have h2 := ih
          (setProp a k ((scReduceExpression cE cps k).evalValue
            { g with accumulated := getProp a k }
            { id := none, properties := cp, geometry := 0 }))
          { g with accumulated := getProp a k }
          hm (List.nodup_cons.mp hnd).2
        rw [show scReduceStep cE cps cp (a, g) k =
            (setProp a k ((scReduceExpression cE cps k).evalValue
              { g with accumulated := getProp a k }
              { id := none, properties := cp, geometry := 0 }),
             { g with accumulated := getProp a k }) from rfl, h2,
          getProp_setProp_ne _ _ _ _ hk]

theorem find_entry_of_mem_nodup (cps : ClusterProperties) (key : String)
    (op mapE : ExprSpec) (hmem : (key, op, mapE) ∈ cps)
    (hnd : (cps.map (fun e => e.1)).Nodup) :
    cps.find? (fun e => e.1 = key) = some (key, op, mapE) := by
  induction cps with
  | nil => cases hmem
  | cons e rest ih =>
      rw [List.map_cons, List.nodup_cons] at hnd
      rcases List.mem_cons.mp hmem with he | hm
      · subst he
        simp [List.find?_cons]
      · have hne : e.1 ≠ key := by
          intro h
          apply hnd.1
          rw [h]
          exact List.mem_map.mpr ⟨(key, op, mapE), hm, rfl⟩
        have hd : (decide (e.1 = key)) = false := by simp [hne]
        rw [List.find?_cons, hd]
        exact ih hm hnd.2

/-- C8: with a cluster-property spec and supercluster options present, the
map and reduce callbacks are installed on the clustering configuration; a
bare operator name as reduce term is synthesized into
`[operator, ['accumulated'], ['get', name]]` (any other term is used
directly); the map callback evaluates each name's map expression against
the shared globals (whose zoom starts at 0 and is never written) and the
point's properties; and the reduce callback, iterating names in key
enumeration order, sets the accumulated slot to `accumulatedProperties[name]`,
evaluates the reduce expression against the incoming properties, and
overwrites `accumulatedProperties[name]` with the result. -/
theorem C8_cluster_property_wiring (cE : CreateExpression)
    (params : LoadGeoJSONParameters) (cps : ClusterProperties)
    (so : SuperclusterOptions)
    (hcp : params.clusterProperties = some cps)
    (hso : params.superclusterOptions = some so) :
    (∀ key op, clusterReduceExprSpec key (.lit (.jstr op)) =
        .arr [.lit (.jstr op), .arr [.lit (.jstr "accumulated")],
              .arr [.lit (.jstr "get"), .lit (.jstr key)]]) ∧
    (∀ key v, (∀ s, v ≠ ExprSpec.lit (.jstr s)) → clusterReduceExprSpec key v = v) ∧
    (getSuperclusterOptions cE params = some { so with
        map := some (scMapCallback cE cps),
        reduce := some (scReduceCallback cE cps) }) ∧
    scInitialGlobals.zoom = 0 ∧
    (∀ g acc incoming, ((scReduceCallback cE cps g acc incoming).2).zoom = g.zoom) ∧
    (∀ key op mapE compiled g pp, (key, op, mapE) ∈ cps →
      (cps.map (fun e => e.1)).Nodup → cE mapE none = .success compiled →
      getProp (scMapCallback cE cps g pp) key =
        some (compiled g { id := none, properties := pp, geometry := 0 })) ∧
    (∀ key op mapE rcompiled g acc incoming, (key, op, mapE) ∈ cps →
      (cps.map (fun e => e.1)).Nodup →
      cE (clusterReduceExprSpec key op) none = .success rcompiled →
      getProp (scReduceCallback cE cps g acc incoming).1 key =
        some (rcompiled { accumulated := getProp acc key, zoom := g.zoom }
          { id := none, properties := incoming, geometry := 0 })) := by
  refine ⟨fun key op => rfl, ?_, ?_, rfl, ?_, ?_, ?_⟩
  · intro key v hv
    cases v with
    | lit p =>
        cases p with
        | jstr s => exact absurd rfl (hv s)
        | _ => rfl
    | arr es => rfl
  · simp only [getSuperclusterOptions, hcp, hso]
  · intro g acc incoming
    exact scReduceFold_zoom cE cps incoming _ (acc, g)
  · intro key op mapE compiled g pp hmem hnd hc
    unfold scMapCallback
    rw [getProp_foldl_set_of_mem _ _ _ _ (List.mem_map.mpr ⟨(key, op, mapE), hmem, rfl⟩) hnd]
    unfold scMapExpression
    rw [find_entry_of_mem_nodup cps key op mapE hmem hnd]
    simp [hc, ExprResult.evalValue]
  · intro key op mapE rcompiled g acc incoming hmem hnd hc
    unfold scReduceCallback
    rw [scReduceFold_getProp_mem cE cps incoming _ acc g key
      (List.mem_map.mpr ⟨(key, op, mapE), hmem, rfl⟩) hnd]
    unfold scReduceExpression
    rw [find_entry_of_mem_nodup cps key op mapE hmem hnd]
    simp [hc, ExprResult.evalValue]

/-- Witness for C8 on the one-entry spec `sum: ['+', lit 1]` with the
accumulated-echoing compiler: the synthesized reduce expression has the
claimed shape, the callbacks are installed, the map callback writes the
`sum` slot, and the reduce callback reads `accumulated['sum']` (here 4)
into the context and writes the evaluation result back. -/
theorem C8_cluster_property_wiring_witness :
    (clusterReduceExprSpec "sum" (.lit (.jstr "+")) =
      .arr [.lit (.jstr "+"), .arr [.lit (.jstr "accumulated")],
            .arr [.lit (.jstr "get"), .lit (.jstr "sum")]]) ∧
    (getSuperclusterOptions accEchoCreate
        { superclusterOptions := some {}, clusterProperties := some sumClusterProps } =
      some { base := 0, map := some (scMapCallback accEchoCreate sumClusterProps),
             reduce := some (scReduceCallback accEchoCreate sumClusterProps) }) ∧
    (getProp (scMapCallback accEchoCreate sumClusterProps scInitialGlobals []) "sum" =
      some .jnull) ∧
    (getProp (scReduceCallback accEchoCreate sumClusterProps scInitialGlobals
        [("sum", .jnum 4)] []).1 "sum" = some (.jnum 4)) := by
  have h := C8_cluster_property_wiring accEchoCreate
    { superclusterOptions := some {}, clusterProperties := some sumClusterProps }
    sumClusterProps {} rfl rfl
  refine ⟨h.1 "sum" "+", h.2.2.1, ?_, ?_⟩
  · exact h.2.2.2.2.2.1 "sum" (.lit (.jstr "+")) (.lit (.jnum 1)) _
      scInitialGlobals [] (by simp [sumClusterProps]) (by simp [sumClusterProps]) rfl
  · exact h.2.2.2.2.2.2 "sum" (.lit (.jstr "+")) (.lit (.jnum 1)) _
      scInitialGlobals [("sum", .jnum 4)] [] (by simp [sumClusterProps])
      (by simp [sumClusterProps]) rfl

theorem normalizeView_spec (v : ByteView) :
    (normalizeView v).byteOffset = 0 ∧
    (normalizeView v).byteLength = (normalizeView v).backing.length ∧
    (normalizeView v).backing = v.visible := by
  unfold normalizeView ByteView.tightCopy
  split
  · exact ⟨rfl, rfl, rfl⟩
  · next h =>
      push_neg at h
      refine ⟨h.1, h.2, ?_⟩
      unfold ByteView.visible
      rw [h.1, h.2, List.drop_zero, List.take_length]

/-- C9: tile extraction returns empty (not an error) when no index has been
built or the index has no tile at the requested address; otherwise the raw
bytes handed across are backed by a buffer with byte offset zero and byte
length equal to the backing capacity — a sub-view of a larger buffer having
been copied to a tight buffer — and the buffer holds exactly the encoder's
visible bytes. -/
theorem C9_tile_extraction {Index : Type}
    (getTile : Index → Nat → Nat → Nat → Option (List GeoFeature))
    (vtpbf : List GeoFeature → ByteView)
    (idx : Option Index) (params : TileParams) :
    (idx = none → loadGeoJSONTile getTile vtpbf idx params = none) ∧
    (∀ i, idx = some i → getTile i params.z params.x params.y = none →
      loadGeoJSONTile getTile vtpbf idx params = none) ∧
    (∀ i fs, idx = some i → getTile i params.z params.x params.y = some fs →
      loadGeoJSONTile getTile vtpbf idx params =
        some { vectorTile := fs, rawData := (normalizeView (vtpbf fs)).backing } ∧
      (normalizeView (vtpbf fs)).byteOffset = 0 ∧
      (normalizeView (vtpbf fs)).byteLength = (normalizeView (vtpbf fs)).backing.length ∧
      (normalizeView (vtpbf fs)).backing = (vtpbf fs).visible) := by
  refine ⟨?_, ?_, ?_⟩
  · intro h
    simp only [loadGeoJSONTile, h]
  · intro i hi ht
    simp only [loadGeoJSONTile, hi, ht]
  · intro i fs hi ht
    refine ⟨by simp only [loadGeoJSONTile, hi, ht], normalizeView_spec (vtpbf fs)⟩

/-- Witness for C9: no index and a tile miss both yield empty; on a hit a
loose encoder view (offset 1, length 2 over a 4-byte buffer) is copied so
the returned raw buffer is exactly the visible bytes. -/
theorem C9_tile_extraction_witness :
    (loadGeoJSONTile (fun (_ : Unit) z _ _ => if z = 1 then some [{}] else none)
        (fun _ => ⟨[9, 8, 7, 6], 1, 2⟩) none { z := 1 } = none) ∧
    (loadGeoJSONTile (fun (_ : Unit) z _ _ => if z = 1 then some [{}] else none)
        (fun _ => ⟨[9, 8, 7, 6], 1, 2⟩) (some ()) { z := 0 } = none) ∧
    (loadGeoJSONTile (fun (_ : Unit) z _ _ => if z = 1 then some [{}] else none)
        (fun _ => ⟨[9, 8, 7, 6], 1, 2⟩) (some ()) { z := 1 } =
      some { vectorTile := [{}], rawData := [8, 7] }) := by
  refine ⟨?_, ?_, ?_⟩
  · exact (C9_tile_extraction (fun (_ : Unit) z _ _ => if z = 1 then some [{}] else none)
      (fun _ => ⟨[9, 8, 7, 6], 1, 2⟩) none { z := 1 }).1 rfl
  · exact (C9_tile_extraction (fun (_ : Unit) z _ _ => if z = 1 then some [{}] else none)
      (fun _ => ⟨[9, 8, 7, 6], 1, 2⟩) (some ()) { z := 0 }).2.1 () rfl rfl
  · exact ((C9_tile_extraction (fun (_ : Unit) z _ _ => if z = 1 then some [{}] else none)
      (fun _ => ⟨[9, 8, 7, 6], 1, 2⟩) (some ()) { z := 1 }).2.2 () [{}] rfl rfl).1

end GeoWorker
